import Mathlib

/-!
Verification of the fast-textrank core against its specification.

The development shallowly embeds the Rust sources of the repository:
`src/pipeline/error_code.rs`, `src/pipeline/observer.rs` and
`src/variants/topical_pagerank.rs`.  Components of the repository that the
embedded files call but whose sources are not available (graph builder, CSR
graph, personalized PageRank, phrase extraction, the basic data types) are
modelled from the specification; each such definition carries a doc comment
starting with "Modelled from the spec".  Machine floats (`f64`) are modelled
by `Rat`; machine integers by `Nat` with explicit `% 2 ^ 64` where the code
truncates.
-/

set_option maxHeartbeats 1000000

namespace FastTextrank

/- ============================================================ -/
/- ErrorCode (src/pipeline/error_code.rs)                        -/
/- ============================================================ -/

/-- The stable, public error code enum from `src/pipeline/error_code.rs`
(ten variants, `#[non_exhaustive]` in Rust). -/
inductive ErrorCode where
  | MissingStage
  | InvalidCombo
  | ModuleUnavailable
  | LimitExceeded
  | UnknownField
  | InvalidValue
  | IncompatibleModules
  | ValidationFailed
  | StageFailed
  | ConvergenceFailed
deriving DecidableEq, Fintype, Repr

/-- Embeds `ErrorCode::as_str` (error_code.rs lines 65-78): the canonical
snake_case string form of each code. -/
def ErrorCode.as_str : ErrorCode → String
  | .MissingStage => "missing_stage"
  | .InvalidCombo => "invalid_combo"
  | .ModuleUnavailable => "module_unavailable"
  | .LimitExceeded => "limit_exceeded"
  | .UnknownField => "unknown_field"
  | .InvalidValue => "invalid_value"
  | .IncompatibleModules => "incompatible_modules"
  | .ValidationFailed => "validation_failed"
  | .StageFailed => "stage_failed"
  | .ConvergenceFailed => "convergence_failed"

/-- Embeds `Display for ErrorCode` (error_code.rs lines 81-85), which writes
exactly `as_str`. -/
def ErrorCode.display (c : ErrorCode) : String := c.as_str

/-- The ten `ErrorCode` variants, in declaration order. -/
def ErrorCode.all : List ErrorCode :=
  [.MissingStage, .InvalidCombo, .ModuleUnavailable, .LimitExceeded,
   .UnknownField, .InvalidValue, .IncompatibleModules, .ValidationFailed,
   .StageFailed, .ConvergenceFailed]

/-- Modelled from the spec: the serde derive on `ErrorCode`
(`#[serde(rename_all = "snake_case")]`, error_code.rs lines 25-27) is
generated by an external crate, so its body is not in the sources.  Per the
serde semantics the module documentation describes ("Codes are serialized as
snake_case strings", doc examples `MissingStage → "missing_stage"` etc.),
each variant serializes to the snake_case form of its Rust name. -/
def ErrorCode.serde_serialize : ErrorCode → String
  | .MissingStage => "missing_stage"
  | .InvalidCombo => "invalid_combo"
  | .ModuleUnavailable => "module_unavailable"
  | .LimitExceeded => "limit_exceeded"
  | .UnknownField => "unknown_field"
  | .InvalidValue => "invalid_value"
  | .IncompatibleModules => "incompatible_modules"
  | .ValidationFailed => "validation_failed"
  | .StageFailed => "stage_failed"
  | .ConvergenceFailed => "convergence_failed"

/-- Modelled from the spec: serde deserialization of the derived enum accepts
exactly the strings produced by serialization, yielding the matching variant,
and fails (`none`) on every other string. -/
def ErrorCode.serde_deserialize (s : String) : Option ErrorCode :=
  ErrorCode.all.find? (fun c => c.serde_serialize == s)

/- ============================================================ -/
/- Stage name constants (src/pipeline/observer.rs lines 264-279) -/
/- ============================================================ -/

def STAGE_PREPROCESS : String := "preprocess"

def STAGE_CANDIDATES : String := "candidates"

def STAGE_GRAPH : String := "graph"

def STAGE_GRAPH_TRANSFORM : String := "graph_transform"

def STAGE_TELEPORT : String := "teleport"

def STAGE_RANK : String := "rank"

def STAGE_PHRASES : String := "phrases"

def STAGE_FORMAT : String := "format"

/-- The eight stage-name constants, in pipeline order. -/
def stage_names : List String :=
  [STAGE_PREPROCESS, STAGE_CANDIDATES, STAGE_GRAPH, STAGE_GRAPH_TRANSFORM,
   STAGE_TELEPORT, STAGE_RANK, STAGE_PHRASES, STAGE_FORMAT]

/- ============================================================ -/
/- Duration and StageReport (src/pipeline/observer.rs)           -/
/- ============================================================ -/

/-- Modelled from the spec: `std::time::Duration` is the standard library
duration type (whole seconds plus a nanosecond remainder below 10^9), used by
`StageReport` but external to the repository. -/
structure Duration where
  secs : Nat
  nanos : Nat
deriving DecidableEq, Repr

/-- Modelled from the spec: `Duration::as_micros` returns the total number of
whole microseconds (`u128`, no overflow for `u64` seconds):
`secs * 10^6 + nanos / 10^3`. -/
def Duration.as_micros (d : Duration) : Nat :=
  d.secs * 1000000 + d.nanos / 1000

/-- Modelled from the spec: `Duration::from_micros(us)` builds the duration
with `us / 10^6` seconds and `(us % 10^6) * 10^3` nanoseconds. -/
def Duration.from_micros (us : Nat) : Duration :=
  { secs := us / 1000000, nanos := us % 1000000 * 1000 }

/-- Embeds `StageReport` (observer.rs lines 49-63): the per-stage metrics
record.  Only `duration_us` is always populated. -/
structure StageReport where
  duration_us : Nat
  nodes : Option Nat
  edges : Option Nat
  iterations : Option Nat
  converged : Option Bool
  residual : Option Rat
deriving DecidableEq, Repr

/-- Embeds `StageReport::new` (observer.rs lines 68-77): only the duration is
populated, as `duration.as_micros() as u64` (the Rust `as` cast truncates
modulo `2^64`). -/
def StageReport.new (duration : Duration) : StageReport :=
  { duration_us := duration.as_micros % 2 ^ 64
    nodes := none
    edges := none
    iterations := none
    converged := none
    residual := none }

/-- Embeds `StageReport::duration` (observer.rs lines 87-89). -/
def StageReport.duration (r : StageReport) : Duration :=
  Duration.from_micros r.duration_us

/-- Embeds `StageReportBuilder` (observer.rs lines 149-151): a fluent builder
wrapping the report being accumulated. -/
structure StageReportBuilder where
  report : StageReport
deriving DecidableEq, Repr

namespace StageReportBuilder

/-- Embeds `StageReportBuilder::new` (observer.rs lines 156-160). -/
def new (duration : Duration) : StageReportBuilder :=
  { report := StageReport.new duration }

/-- Embeds the `nodes` setter (observer.rs lines 164-167). -/
def nodes (b : StageReportBuilder) (n : Nat) : StageReportBuilder :=
  { b with report := { b.report with nodes := some n } }

/-- Embeds the `edges` setter (observer.rs lines 171-174). -/
def edges (b : StageReportBuilder) (n : Nat) : StageReportBuilder :=
  { b with report := { b.report with edges := some n } }

/-- Embeds the `iterations` setter (observer.rs lines 178-181). -/
def iterations (b : StageReportBuilder) (n : Nat) : StageReportBuilder :=
  { b with report := { b.report with iterations := some n } }

/-- Embeds the `converged` setter (observer.rs lines 185-188). -/
def converged (b : StageReportBuilder) (c : Bool) : StageReportBuilder :=
  { b with report := { b.report with converged := some c } }

/-- Embeds the `residual` setter (observer.rs lines 192-195). -/
def residual (b : StageReportBuilder) (r : Rat) : StageReportBuilder :=
  { b with report := { b.report with residual := some r } }

/-- Embeds `StageReportBuilder::build` (observer.rs lines 199-201). -/
def build (b : StageReportBuilder) : StageReport :=
  b.report

end StageReportBuilder

/- ============================================================ -/
/- Data model (crate::types, modelled)                           -/
/- ============================================================ -/

/-- Modelled from the spec: the part-of-speech tag carried by each token
(`crate::types::PosTag`; the sources in scope use `Noun`, `Verb`,
`Adjective`; `Other` stands for the remaining tags). -/
inductive PosTag where
  | Noun
  | Verb
  | Adjective
  | Other
deriving DecidableEq, Repr

/-- Modelled from the spec: an annotated token (`crate::types::Token`) —
"text, lemma, POS tag, character span, sentence index, position index,
stopword flag" (spec §6), matching the field list used in the available
tests. -/
structure Token where
  text : String
  lemma_ : String
  pos : PosTag
  start : Nat
  end_pos : Nat
  sentence_idx : Nat
  token_idx : Nat
  is_stopword : Bool
deriving DecidableEq, Repr

/-- Modelled from the spec: the configuration record
(`crate::types::TextRankConfig`), holding the recognized options of spec §6
that the embedded sources read (`window_size`, `include_pos`,
`use_pos_in_nodes`, `damping`, `max_iterations`, `convergence_threshold`)
plus the `top_n` phrase cutoff used by `with_top_n`. -/
structure TextRankConfig where
  window_size : Nat
  include_pos : List PosTag
  use_pos_in_nodes : Bool
  damping : Rat
  max_iterations : Nat
  convergence_threshold : Rat
  top_n : Nat
deriving DecidableEq, Repr

/-- Modelled from the spec: a scored phrase (`crate::types::Phrase`); the
available tests read its `lemma` and `score` fields. -/
structure Phrase where
  lemma_ : String
  score : Rat
deriving DecidableEq, Repr

/- ============================================================ -/
/- Graph builder (crate::graph::builder, modelled from spec §4.1)-/
/- ============================================================ -/

/-- Modelled from the spec: a node key is "a lemma, optionally combined with
a part-of-speech tag when node identity is configured to be POS-sensitive"
(spec §3). -/
structure NodeKey where
  lemma_ : String
  pos : Option PosTag
deriving DecidableEq, Repr

/-- Modelled from the spec: a token survives node creation iff its POS tag is
in the allow-list (when one is supplied) and it is not flagged as a stopword
("tokens whose POS tag is not in the list are excluded from node creation
entirely"; "builder simply honors a per-token inclusion flag", spec §4.1). -/
def token_included (pos_filter : Option (List PosTag)) (t : Token) : Bool :=
  (match pos_filter with
   | none => true
   | some l => l.contains t.pos) && !t.is_stopword

/-- Modelled from the spec: "when true, node key is (lemma, POS); when false,
node key is lemma alone" (spec §4.1). -/
def node_key_of (pos_sensitive : Bool) (t : Token) : NodeKey :=
  { lemma_ := t.lemma_, pos := if pos_sensitive then some t.pos else none }

/-- Modelled from the spec: the ordered token pairs eligible to form an edge:
"for each token position i, an edge candidate is formed with every token at
position j where 1 ≤ j−i ≤ W"; when `ignore_sentence_boundaries` is false "a
window never spans a sentence boundary" (spec §4.1). -/
def window_pairs (tokens : List Token) (window_size : Nat)
    (ignore_sentence_boundaries : Bool) : List (Token × Token) :=
  tokens.enum.flatMap fun it =>
    (tokens.enum.filter fun ju =>
        decide (it.1 < ju.1) && decide (ju.1 - it.1 ≤ window_size) &&
          (ignore_sentence_boundaries || it.2.sentence_idx == ju.2.sentence_idx)).map
      fun ju => (it.2, ju.2)

/-- Modelled from the spec: the sparse edge-weight accumulator — "when true,
repeated co-occurrence of the same pair accumulates weight (+1 per
occurrence); when false, edge weight saturates at 1 on first occurrence"
(spec §4.1). -/
def add_edge (weighted : Bool) (edges : List ((Nat × Nat) × Rat))
    (p : Nat × Nat) : List ((Nat × Nat) × Rat) :=
  match edges with
  | [] => [(p, 1)]
  | e :: rest =>
    if e.1 = p then
      (if weighted then (p, e.2 + 1) :: rest else e :: rest)
    else
      e :: add_edge weighted rest p

/-- The weight recorded for pair `p` in an edge accumulator (0 if absent). -/
def edge_weight (edges : List ((Nat × Nat) × Rat)) (p : Nat × Nat) : Rat :=
  match edges with
  | [] => 0
  | e :: rest => if e.1 = p then e.2 else edge_weight rest p

/-- An unordered node-index pair in canonical (min, max) form. -/
def canonical_pair (i j : Nat) : Nat × Nat :=
  if i ≤ j then (i, j) else (j, i)

/-- Modelled from the spec: the Graph Builder — "a mutable accumulator owning
a key→index map and a sparse edge-weight accumulator" (spec §3); here the
key→index map is the first-seen-ordered key list (the index of a key is its
position in the list). -/
structure GraphBuilder where
  nodes : List NodeKey
  edges : List ((Nat × Nat) × Rat)
deriving DecidableEq, Repr

/-- Modelled from the spec: the first-seen-ordered node list of the builder — "a
dense integer assigned the first time a key is seen during graph
construction, in first-seen order" (spec §3). -/
def build_nodes (tokens : List Token) (pos_filter : Option (List PosTag))
    (pos_sensitive : Bool) : List NodeKey :=
  tokens.foldl
    (fun acc t =>
      if token_included pos_filter t then
        (if acc.contains (node_key_of pos_sensitive t) then acc
         else acc ++ [node_key_of pos_sensitive t])
      else acc)
    []

/-- Modelled from the spec: `GraphBuilder::from_tokens_with_pos_and_boundaries`
(spec §4.1 contract `from_tokens(tokens, window_size, weighted, pos_filter,
pos_sensitive_nodes, ignore_sentence_boundaries)`): one linear scan
accumulates first-seen-ordered nodes and windowed co-occurrence edges;
self-loops are never created. -/
def GraphBuilder.from_tokens_with_pos_and_boundaries (tokens : List Token)
    (window_size : Nat) (weighted : Bool)
    (pos_filter : Option (List PosTag)) (pos_sensitive : Bool)
    (ignore_sentence_boundaries : Bool) : GraphBuilder :=
  let nodes := build_nodes tokens pos_filter pos_sensitive
  let edges :=
    (window_pairs tokens window_size ignore_sentence_boundaries).foldl
      (fun es tu =>
        if token_included pos_filter tu.1 && token_included pos_filter tu.2 then
          let k1 := node_key_of pos_sensitive tu.1
          let k2 := node_key_of pos_sensitive tu.2
          if k1 = k2 then es
          else add_edge weighted es
            (canonical_pair (nodes.indexOf k1) (nodes.indexOf k2))
        else es)
      []
  { nodes := nodes, edges := edges }

/-- Modelled from the spec: "a builder with zero nodes reports empty"
(spec §4.1). -/
def GraphBuilder.is_empty (b : GraphBuilder) : Bool :=
  b.nodes.isEmpty

/- ============================================================ -/
/- Compiled graph (crate::graph::csr, modelled from spec §4.2)   -/
/- ============================================================ -/

/-- Modelled from the spec: the Compiled Graph (`crate::graph::csr::CsrGraph`)
— "an immutable, compressed structure: row offsets into a neighbor list,
per-row neighbor indices, per-row edge weights, and a precomputed per-node
total outgoing weight" (spec §3), plus the reverse lookup from node index
back to its key (spec §4.2), kept here as the ordered key list. -/
structure CsrGraph where
  keys : List NodeKey
  row_offsets : List Nat
  col : List Nat
  wts : List Rat
  out_weight : List Rat
deriving DecidableEq, Repr

/-- Node count of a compiled graph (spec §4.2: "node count in O(1)"). -/
def CsrGraph.node_count (g : CsrGraph) : Nat := g.keys.length

/-- Modelled from the spec: the per-row adjacency lists of a builder, one row
per node index, each row listing (neighbor index, weight); since the graph is
undirected, an accumulated pair contributes to the rows of both endpoints. -/
def builder_rows (b : GraphBuilder) : List (List (Nat × Rat)) :=
  (List.range b.nodes.length).map fun v =>
    b.edges.filterMap fun e =>
      if e.1.1 = v then some (e.1.2, e.2)
      else if e.1.2 = v then some (e.1.1, e.2)
      else none

/-- Modelled from the spec: `CsrGraph::from_builder` — "compile(builder) ->
CompiledGraph" (spec §4.2): finalize the node order, concatenate the per-row
neighbor lists behind monotone row offsets, and precompute for each row the total
outgoing weight (row sum). -/
def CsrGraph.from_builder (b : GraphBuilder) : CsrGraph :=
  let rows := builder_rows b
  { keys := b.nodes
    row_offsets := (List.range (b.nodes.length + 1)).map fun v =>
      ((rows.take v).map List.length).sum
    col := rows.flatten.map Prod.fst
    wts := rows.flatten.map Prod.snd
    out_weight := rows.map fun r => (r.map Prod.snd).sum }

/-- The (neighbor index, edge weight) list of node `v`, read back out of the
compressed representation (spec §4.2: "neighbor iteration for node u in
O(degree(u))"). -/
def CsrGraph.neighbors_of (g : CsrGraph) (v : Nat) : List (Nat × Rat) :=
  let a := g.row_offsets.getD v 0
  let b := g.row_offsets.getD (v + 1) 0
  (List.range (b - a)).map fun k => (g.col.getD (a + k) 0, g.wts.getD (a + k) 0)

/-- Total outgoing weight of node `u` (spec §4.2: "total outgoing weight of u
in O(1)"). -/
def CsrGraph.out_weight_of (g : CsrGraph) (u : Nat) : Rat :=
  g.out_weight.getD u 0

/- ============================================================ -/
/- Ranking engine (crate::pagerank, modelled from spec §4.3-4.4) -/
/- ============================================================ -/

/-- Modelled from the spec: the final ranking result (`RankOutput`, spec §3):
"the final score vector plus converged flag, iteration count, and final
residual". -/
structure RankOutput where
  scores : List Rat
  converged : Bool
  iterations : Nat
  residual : Rat
deriving DecidableEq, Repr

/-- Modelled from the spec: normalize a raw non-negative vector to sum 1 by
dividing by its sum, falling back to the uniform vector 1/N when the sum is
zero "rather than dividing by zero" (spec §4.4). -/
def normalize_vec (raw : List Rat) : List Rat :=
  let s := raw.sum
  if s = 0 then List.replicate raw.length (1 / (raw.length : Rat))
  else raw.map fun w => w / s

/-- Modelled from the spec: `topic_weight_personalization(topic_weights,
graph, pos_filter, pos_sensitive_nodes, min_weight)` (spec §4.4): "for each
node index i with key k, look up the weight for the lemma of k in topic_weights;
if absent, use min_weight", then normalize (uniform fallback on zero sum).
The `pos_filter` and `pos_sensitive` arguments are kept for signature
fidelity with the call in topical_pagerank.rs; the lookup is by lemma. -/
def topic_weight_personalization (topic_weights : List (String × Rat))
    (g : CsrGraph) (pos_filter : List PosTag) (pos_sensitive : Bool)
    (min_weight : Rat) : List Rat :=
  let _ := pos_filter
  let _ := pos_sensitive
  normalize_vec (g.keys.map fun k =>
    match topic_weights.lookup k.lemma_ with
    | some w => w
    | none => min_weight)

/-- Modelled from the spec: one power-iteration update (spec §4.3): for every
node v, `new_score[v] = (1 - damping) * teleport[v] + damping *
Σ_{u ∈ neighbors(v)} weight(u,v) / outgoing_weight(u) * score[u]`, nodes with
zero outgoing weight contributing 0 beyond the teleport term.  The update
order is by node index (spec §4.3 determinism). -/
def pagerank_step (g : CsrGraph) (damping : Rat) (teleport scores : List Rat) :
    List Rat :=
  (List.range g.node_count).map fun v =>
    (1 - damping) * teleport.getD v 0 +
      damping * ((g.neighbors_of v).foldl
        (fun acc uw =>
          let ow := g.out_weight_of uw.1
          acc + (if ow = 0 then 0 else uw.2 / ow * scores.getD uw.1 0))
        0)

/-- The L1 distance between two score vectors (spec §4.3: "residual = L1 norm
of (new_score − score)"). -/
def l1dist (xs ys : List Rat) : Rat :=
  ((xs.zip ys).map fun p => |p.1 - p.2|).sum

/-- Modelled from the spec: the power-iteration loop (spec §4.3): "the engine
always performs the update for the current iteration before testing
convergence"; converged when residual ≤ threshold; when `max_iterations` is
exhausted the last computed vector is returned with `converged = false`. -/
def pagerank_loop (g : CsrGraph) (damping : Rat) (teleport : List Rat)
    (threshold : Rat) :
    Nat → List Rat → Nat → Rat → RankOutput
  | 0, scores, iters, res =>
    { scores := scores, converged := false, iterations := iters, residual := res }
  | fuel + 1, scores, iters, _ =>
    let next := pagerank_step g damping teleport scores
    let res := l1dist next scores
    if res ≤ threshold then
      { scores := next, converged := true, iterations := iters + 1, residual := res }
    else
      pagerank_loop g damping teleport threshold fuel next (iters + 1) res

/-- Modelled from the spec: the personalized PageRank solver configuration
(`crate::pagerank::personalized::PersonalizedPageRank`), built fluently via
`new().with_damping(..).with_max_iterations(..).with_threshold(..)
.with_personalization(..)` as called from topical_pagerank.rs. -/
structure PersonalizedPageRank where
  damping : Rat
  max_iterations : Nat
  threshold : Rat
  personalization : Option (List Rat)
deriving DecidableEq, Repr

namespace PersonalizedPageRank

/-- Modelled from the spec: `PersonalizedPageRank::new()`.  Its default field
values are not given by the spec; they are unobservable in the embedded call
site, which overwrites every field before running (topical_pagerank.rs lines
109-113), so representative defaults are used. -/
def new : PersonalizedPageRank :=
  { damping := 17 / 20
    max_iterations := 100
    threshold := 1 / 1000000
    personalization := none }

/-- Fluent damping setter, as called from topical_pagerank.rs line 110. -/
def with_damping (self : PersonalizedPageRank) (d : Rat) : PersonalizedPageRank :=
  { self with damping := d }

/-- Fluent iteration-cap setter (topical_pagerank.rs line 111). -/
def with_max_iterations (self : PersonalizedPageRank) (m : Nat) :
    PersonalizedPageRank :=
  { self with max_iterations := m }

/-- Fluent threshold setter (topical_pagerank.rs line 112). -/
def with_threshold (self : PersonalizedPageRank) (t : Rat) :
    PersonalizedPageRank :=
  { self with threshold := t }

/-- Fluent personalization setter (topical_pagerank.rs line 113). -/
def with_personalization (self : PersonalizedPageRank) (p : List Rat) :
    PersonalizedPageRank :=
  { self with personalization := some p }

/-- Modelled from the spec: `run(graph, damping, max_iterations, threshold,
personalization?) -> RankOutput` (spec §4.3).  A zero-node graph "returns
RankOutput with an empty score vector, converged=true, iterations=0, without
invoking the update loop"; otherwise the score vector starts at the
normalized personalization vector (or uniform 1/N without one) — "teleport
and initial state share the same distribution in this design" — and power
iteration runs to convergence or to `max_iterations`. -/
def run (self : PersonalizedPageRank) (g : CsrGraph) : RankOutput :=
  let n := g.node_count
  if n = 0 then
    { scores := [], converged := true, iterations := 0, residual := 0 }
  else
    let teleport :=
      match self.personalization with
      | some p => normalize_vec p
      | none => List.replicate n (1 / (n : Rat))
    pagerank_loop g self.damping teleport self.threshold
      self.max_iterations teleport 0 0

end PersonalizedPageRank

/- ============================================================ -/
/- Phrase extraction (crate::phrase::extraction, modelled)       -/
/- ============================================================ -/

/-- Modelled from the spec: phrase assembly is external to the specified core
("candidate/phrase surface-form assembly ... out of scope", spec §1; the
score vector is "consumed by phrase assembly", spec §2).  It is modelled as a
deterministic function of its inputs: each node contributes a single-lemma
phrase scored by its rank, and the `top_n` highest-scoring phrases are
returned. -/
structure PhraseExtractor where
  config : TextRankConfig
deriving DecidableEq, Repr

/-- Modelled from the spec: `PhraseExtractor::with_config` (called at
topical_pagerank.rs line 116). -/
def PhraseExtractor.with_config (config : TextRankConfig) : PhraseExtractor :=
  { config := config }

/-- Insert a phrase into a list kept sorted by descending score. -/
def insert_desc (p : Phrase) : List Phrase → List Phrase
  | [] => [p]
  | q :: qs => if q.score < p.score then p :: q :: qs else q :: insert_desc p qs

/-- Sort phrases by descending score (insertion sort). -/
def sort_desc (ps : List Phrase) : List Phrase :=
  ps.foldr insert_desc []

/-- Modelled from the spec: `PhraseExtractor::extract(tokens, graph,
pagerank)` (topical_pagerank.rs line 117) — assemble "top-ranked phrases from
the scored nodes" (spec §1): score each node key by its entry of the rank
vector, order by descending score and keep the configured `top_n`. -/
def PhraseExtractor.extract (self : PhraseExtractor) (tokens : List Token)
    (g : CsrGraph) (pagerank : RankOutput) : List Phrase :=
  let _ := tokens
  let scored := g.keys.enum.map fun ik =>
    { lemma_ := ik.2.lemma_, score := pagerank.scores.getD ik.1 0 : Phrase }
  (sort_desc scored).take self.config.top_n

/- ============================================================ -/
/- TopicalPageRank (src/variants/topical_pagerank.rs)            -/
/- ============================================================ -/

/-- Embeds `ExtractionResult` (`crate::phrase::extraction`), as constructed
in topical_pagerank.rs lines 89-95 and 119-123: phrases plus the PageRank
convergence information. -/
structure ExtractionResult where
  phrases : List Phrase
  converged : Bool
  iterations : Nat
deriving DecidableEq, Repr

/-- Embeds `TopicalPageRank` (topical_pagerank.rs lines 21-27): config, topic
importance weights (lemma → weight, a `HashMap` modelled as an association
list) and the minimum out-of-vocabulary weight. -/
structure TopicalPageRank where
  config : TextRankConfig
  topic_weights : List (String × Rat)
  min_weight : Rat
deriving DecidableEq, Repr

namespace TopicalPageRank

/-- Embeds `TopicalPageRank::with_config` (topical_pagerank.rs lines 46-52). -/
def with_config (config : TextRankConfig) : TopicalPageRank :=
  { config := config, topic_weights := [], min_weight := 0 }

/-- Embeds `TopicalPageRank::with_topic_weights` (topical_pagerank.rs lines
55-58). -/
def with_topic_weights (self : TopicalPageRank)
    (weights : List (String × Rat)) : TopicalPageRank :=
  { self with topic_weights := weights }

/-- Embeds `TopicalPageRank::with_min_weight` (topical_pagerank.rs lines
61-64). -/
def with_min_weight (self : TopicalPageRank) (min_weight : Rat) :
    TopicalPageRank :=
  { self with min_weight := min_weight }

/-- Embeds the `include_pos` computation of `extract_with_info`
(topical_pagerank.rs lines 73-77): an empty `include_pos` list means no
filter. -/
def include_pos_opt (self : TopicalPageRank) : Option (List PosTag) :=
  if self.config.include_pos.isEmpty then none else some self.config.include_pos

/-- Embeds the graph construction of `extract_with_info` (topical_pagerank.rs
lines 80-87): the builder call with `weighted` fixed to `true` and
`ignore_sentence_boundaries` fixed to `false`. -/
def build_graph (self : TopicalPageRank) (tokens : List Token) : GraphBuilder :=
  GraphBuilder.from_tokens_with_pos_and_boundaries tokens
    self.config.window_size
    true
    self.include_pos_opt
    self.config.use_pos_in_nodes
    false

/-- The fully configured solver handed to `run` in `extract_with_info`
(topical_pagerank.rs lines 109-113). -/
def configured_solver (self : TopicalPageRank) (personalization : List Rat) :
    PersonalizedPageRank :=
  (((PersonalizedPageRank.new.with_damping
        self.config.damping).with_max_iterations
        self.config.max_iterations).with_threshold
        self.config.convergence_threshold).with_personalization personalization

/-- Embeds `TopicalPageRank::extract_with_info` (topical_pagerank.rs lines
72-124), generalized over the solver invocation so that the short-circuit on
an empty builder can be stated independently of the solver: build the graph;
if the builder is empty return no phrases with `converged = true`,
`iterations = 0`; otherwise compile, build the personalization vector, run
the solver, extract phrases, and return them with the convergence
flag and iteration count. -/
def extract_with_info_core (self : TopicalPageRank)
    (solver : PersonalizedPageRank → CsrGraph → RankOutput)
    (tokens : List Token) : ExtractionResult :=
  let builder := self.build_graph tokens
  if builder.is_empty then
    { phrases := [], converged := true, iterations := 0 }
  else
    let graph := CsrGraph.from_builder builder
    let personalization := topic_weight_personalization self.topic_weights
      graph self.config.include_pos self.config.use_pos_in_nodes
      self.min_weight
    let pagerank := solver (self.configured_solver personalization) graph
    let phrases := (PhraseExtractor.with_config self.config).extract tokens
      graph pagerank
    { phrases := phrases
      converged := pagerank.converged
      iterations := pagerank.iterations }

/-- Embeds `TopicalPageRank::extract_with_info` itself: the core with the
actual `PersonalizedPageRank::run` solver (topical_pagerank.rs line 114). -/
def extract_with_info (self : TopicalPageRank) (tokens : List Token) :
    ExtractionResult :=
  self.extract_with_info_core PersonalizedPageRank.run tokens

/-- Embeds `TopicalPageRank::extract` (topical_pagerank.rs lines 67-69). -/
def extract (self : TopicalPageRank) (tokens : List Token) : List Phrase :=
  (self.extract_with_info tokens).phrases

/-- The PageRank run performed inside `extract_with_info` on a non-empty
graph (topical_pagerank.rs lines 97-114), named so that theorems can refer to
its output: compile the builder, build the personalization vector, and run
the configured solver. -/
def solver_run (self : TopicalPageRank) (tokens : List Token) : RankOutput :=
  let graph := CsrGraph.from_builder (self.build_graph tokens)
  (self.configured_solver (topic_weight_personalization self.topic_weights
      graph self.config.include_pos self.config.use_pos_in_nodes
      self.min_weight)).run graph

end TopicalPageRank

/-- Embeds the convenience function `extract_keyphrases_topical`
(topical_pagerank.rs lines 138-148). -/
def extract_keyphrases_topical (tokens : List Token) (config : TextRankConfig)
    (topic_weights : List (String × Rat)) (min_weight : Rat) : List Phrase :=
  (((TopicalPageRank.with_config config).with_topic_weights
      topic_weights).with_min_weight min_weight).extract tokens

/- ============================================================ -/
/- Pipeline observer (src/pipeline/observer.rs)                  -/
/- ============================================================ -/

/-- Modelled from the spec: the tokens artifact
(`crate::pipeline::artifacts::TokenStream`), one of the five canonical
artifacts of spec §4.5; its payload is immaterial to the observer contract. -/
structure TokenStream where
  tokens : List Token
deriving DecidableEq, Repr

/-- Modelled from the spec: the candidates artifact
(`crate::pipeline::artifacts::CandidateSet`). -/
structure CandidateSet where
  candidates : List (List String)
deriving DecidableEq, Repr

/-- Modelled from the spec: the phrases artifact
(`crate::pipeline::artifacts::PhraseSet`). -/
structure PhraseSet where
  phrases : List Phrase
deriving DecidableEq, Repr

/-- Embeds the `PipelineObserver` trait (observer.rs lines 241-262) as a
capability record over an observer state `O`: each Rust `&mut self` callback
becomes a state transformer `O → ... → O`.  The default value of every field is
the default method body of the trait — a no-op returning the state unchanged. -/
structure PipelineObserver (O : Type) where
  on_stage_start : O → String → O := fun o _ => o
  on_stage_end : O → String → StageReport → O := fun o _ _ => o
  on_tokens : O → TokenStream → O := fun o _ => o
  on_candidates : O → CandidateSet → O := fun o _ => o
  on_graph : O → CsrGraph → O := fun o _ => o
  on_rank : O → RankOutput → O := fun o _ => o
  on_phrases : O → PhraseSet → O := fun o _ => o

/-- Embeds `NoopObserver` (observer.rs lines 290-291): a fieldless struct. -/
structure NoopObserver where
deriving DecidableEq, Repr

/-- Embeds `impl PipelineObserver for NoopObserver {}` (observer.rs line
293): every callback is inherited from the trait defaults. -/
def noop_observer_impl : PipelineObserver NoopObserver := {}

/-- One observer notification, as issued by the pipeline runner: a stage
start, a stage end with its metrics, or one of the five artifact
notifications. -/
inductive ObserverEvent where
  | stage_start (stage : String)
  | stage_end (stage : String) (report : StageReport)
  | tokens_artifact (ts : TokenStream)
  | candidates_artifact (cs : CandidateSet)
  | graph_artifact (g : CsrGraph)
  | rank_artifact (r : RankOutput)
  | phrases_artifact (ps : PhraseSet)

/-- Dispatch one observer event to the matching callback. -/
def PipelineObserver.handle {O : Type} (impl : PipelineObserver O) (o : O) :
    ObserverEvent → O
  | .stage_start s => impl.on_stage_start o s
  | .stage_end s r => impl.on_stage_end o s r
  | .tokens_artifact t => impl.on_tokens o t
  | .candidates_artifact c => impl.on_candidates o c
  | .graph_artifact g => impl.on_graph o g
  | .rank_artifact r => impl.on_rank o r
  | .phrases_artifact p => impl.on_phrases o p

/- ============================================================ -/
/- Sample inputs used by witnesses                               -/
/- ============================================================ -/

/-- A concrete configuration used to instantiate theorems: window 2, no POS
filter, lemma-only node identity, damping 17/20, one iteration, threshold
1/10, top 5 phrases. -/
def sample_config : TextRankConfig :=
  { window_size := 2
    include_pos := []
    use_pos_in_nodes := false
    damping := 17 / 20
    max_iterations := 1
    convergence_threshold := 1 / 10
    top_n := 5 }

/-- A concrete non-stopword noun token with the given lemma and position. -/
def sample_token (lem : String) (i : Nat) : Token :=
  { text := lem
    lemma_ := lem
    pos := PosTag.Noun
    start := 0
    end_pos := 1
    sentence_idx := 0
    token_idx := i
    is_stopword := false }

/-- A concrete extractor over `sample_config` with no topic weights. -/
def sample_tpr : TopicalPageRank :=
  TopicalPageRank.with_config sample_config

/-- A one-token input whose builder is non-empty. -/
def sample_tokens1 : List Token :=
  [sample_token "machine" 0]

/- ============================================================ -/
/- Helper lemmas                                                 -/
/- ============================================================ -/

/-- Every callback of the no-op observer implementation returns the observer
state unchanged, whichever event is dispatched. -/
theorem noop_handle_eq (o : NoopObserver) (e : ObserverEvent) :
    noop_observer_impl.handle o e = o := by
  cases e <;> rfl

/-- Folding any event sequence through the no-op observer leaves the
observer unchanged. -/
theorem noop_foldl_eq (evs : List ObserverEvent) (o : NoopObserver) :
    evs.foldl noop_observer_impl.handle o = o := by
  induction evs generalizing o with
  | nil => rfl
  | cons e evs ih => rw [List.foldl_cons, noop_handle_eq]

/-- `serde_serialize` agrees with `as_str` on every variant. -/
theorem serde_serialize_eq_as_str (c : ErrorCode) :
    c.serde_serialize = c.as_str := by
  cases c <;> rfl

/- ============================================================ -/
/- Claims                                                        -/
/- ============================================================ -/

/-- Claim C3: `ErrorCode::as_str` returns the snake_case name of each error
kind — `LimitExceeded ↦ "limit_exceeded"`, `InvalidValue ↦ "invalid_value"`,
`ConvergenceFailed ↦ "convergence_failed"`, `StageFailed ↦ "stage_failed"`,
and likewise for the other six variants — and no two of the ten error codes
share a string (`as_str` is injective: the list of all ten codes is
duplicate-free, covers every code, and maps to a duplicate-free string
list). -/
theorem c3_as_str_snake_case_injective :
    (ErrorCode.MissingStage.as_str = "missing_stage" ∧
     ErrorCode.InvalidCombo.as_str = "invalid_combo" ∧
     ErrorCode.ModuleUnavailable.as_str = "module_unavailable" ∧
     ErrorCode.LimitExceeded.as_str = "limit_exceeded" ∧
     ErrorCode.UnknownField.as_str = "unknown_field" ∧
     ErrorCode.InvalidValue.as_str = "invalid_value" ∧
     ErrorCode.IncompatibleModules.as_str = "incompatible_modules" ∧
     ErrorCode.ValidationFailed.as_str = "validation_failed" ∧
     ErrorCode.StageFailed.as_str = "stage_failed" ∧
     ErrorCode.ConvergenceFailed.as_str = "convergence_failed") ∧
    ErrorCode.all.length = 10 ∧
    ErrorCode.all.Nodup ∧
    (∀ c : ErrorCode, c ∈ ErrorCode.all) ∧
    (ErrorCode.all.map ErrorCode.as_str).Nodup := by
  decide

/-- Claim C4: for every `ErrorCode` value, its serde serialization equals its
`Display`/`as_str` string, deserializing that string yields the value back
(round-trip for all ten variants), and deserializing any string that is not
one of the ten canonical snake_case codes fails. -/
theorem c4_serde_roundtrip :
    (∀ c : ErrorCode,
       c.serde_serialize = c.display ∧
       ErrorCode.serde_deserialize c.serde_serialize = some c) ∧
    (∀ s : String, (∀ c : ErrorCode, c.as_str ≠ s) →
       ErrorCode.serde_deserialize s = none) := by
  constructor
  · decide
  · intro s h
    unfold ErrorCode.serde_deserialize
    rw [List.find?_eq_none]
    intro c _
    simp only [beq_iff_eq, serde_serialize_eq_as_str]
    exact h c

/-- Witness for C4: the string "bogus_code" matches no canonical code, and
deserializing it fails. -/
theorem c4_serde_roundtrip_witness :
    (∀ c : ErrorCode, c.as_str ≠ "bogus_code") ∧
    ErrorCode.serde_deserialize "bogus_code" = none :=
  ⟨by decide, c4_serde_roundtrip.2 "bogus_code" (by decide)⟩

/-- Claim C5: the eight stage-name constants are exactly `"preprocess"`,
`"candidates"`, `"graph"`, `"graph_transform"`, `"teleport"`, `"rank"`,
`"phrases"`, `"format"`, and they are pairwise distinct. -/
theorem c5_stage_name_constants :
    stage_names = ["preprocess", "candidates", "graph", "graph_transform",
                   "teleport", "rank", "phrases", "format"] ∧
    stage_names.Nodup := by
  constructor
  · rfl
  · decide

/-- Claim C6: `StageReport::new(d)` populates only the duration (all five
optional fields are `none`), each `StageReportBuilder` setter sets only its
own field to `some` of its argument leaving the duration and every other
field unchanged, and `build()` returns exactly the accumulated report — so
any chain of setters starting from `StageReportBuilder::new(d)` yields the
report with precisely the set fields populated. -/
theorem c6_stage_report_builder_frame :
    ∀ (d : Duration) (b : StageReportBuilder) (n m it : Nat) (c : Bool)
      (r : Rat),
    ((StageReport.new d).nodes = none ∧
     (StageReport.new d).edges = none ∧
     (StageReport.new d).iterations = none ∧
     (StageReport.new d).converged = none ∧
     (StageReport.new d).residual = none) ∧
    (StageReportBuilder.new d).report = StageReport.new d ∧
    (b.nodes n).report = { b.report with nodes := some n } ∧
    (b.edges m).report = { b.report with edges := some m } ∧
    (b.iterations it).report = { b.report with iterations := some it } ∧
    (b.converged c).report = { b.report with converged := some c } ∧
    (b.residual r).report = { b.report with residual := some r } ∧
    b.build = b.report := by
  intro d b n m it c r
  exact ⟨⟨rfl, rfl, rfl, rfl, rfl⟩, rfl, rfl, rfl, rfl, rfl, rfl, rfl⟩

/-- Claim C7: every callback on `NoopObserver` — `on_stage_start`,
`on_stage_end`, and the five artifact callbacks, all inherited as default
`PipelineObserver` methods — is a no-op: each one returns the observer state
unchanged, and any sequence of such invocations, in any order and with any
arguments, leaves the observer unchanged. -/
theorem c7_noop_observer_no_op :
    ∀ (o : NoopObserver) (s : String) (rep : StageReport) (ts : TokenStream)
      (cs : CandidateSet) (g : CsrGraph) (r : RankOutput) (ps : PhraseSet),
    noop_observer_impl.on_stage_start o s = o ∧
    noop_observer_impl.on_stage_end o s rep = o ∧
    noop_observer_impl.on_tokens o ts = o ∧
    noop_observer_impl.on_candidates o cs = o ∧
    noop_observer_impl.on_graph o g = o ∧
    noop_observer_impl.on_rank o r = o ∧
    noop_observer_impl.on_phrases o ps = o ∧
    (∀ evs : List ObserverEvent, evs.foldl noop_observer_impl.handle o = o) := by
  intro o s rep ts cs g r ps
  exact ⟨rfl, rfl, rfl, rfl, rfl, rfl, rfl, fun evs => noop_foldl_eq evs o⟩

/-- Claim C1: for every configuration, if the token sequence produces a graph
builder with zero nodes (in particular for the empty token sequence),
`TopicalPageRank::extract_with_info` returns an `ExtractionResult` with an
empty phrase list, `converged = true` and `iterations = 0`, and it does so
for every possible solver — the PageRank solver is not invoked. -/
theorem c1_empty_short_circuit (tpr : TopicalPageRank) (tokens : List Token)
    (h : (tpr.build_graph tokens).is_empty = true) :
    (∀ solver : PersonalizedPageRank → CsrGraph → RankOutput,
       tpr.extract_with_info_core solver tokens =
         { phrases := [], converged := true, iterations := 0 }) ∧
    tpr.extract_with_info tokens =
      { phrases := [], converged := true, iterations := 0 } := by
  have hcore : ∀ solver : PersonalizedPageRank → CsrGraph → RankOutput,
      tpr.extract_with_info_core solver tokens =
        { phrases := [], converged := true, iterations := 0 } := by
    intro solver
    unfold TopicalPageRank.extract_with_info_core
    simp only [h, if_true]
  exact ⟨hcore, hcore PersonalizedPageRank.run⟩

/-- Witness for C1: the empty token sequence yields an empty builder and the
short-circuited result. -/
theorem c1_empty_short_circuit_witness :
    (sample_tpr.build_graph []).is_empty = true ∧
    sample_tpr.extract_with_info [] =
      { phrases := [], converged := true, iterations := 0 } :=
  ⟨by decide, (c1_empty_short_circuit sample_tpr [] (by decide)).2⟩

/-- Claim C2: for every token sequence yielding a non-empty graph, the
`ExtractionResult` returned by `extract_with_info` carries exactly the
converged flag and iteration count produced by the personalized PageRank run
on that graph, together with the best-effort phrase scores extracted from
that same run — non-convergence is reported through these fields, never
converted into an error or hidden. -/
theorem c2_convergence_reported (tpr : TopicalPageRank) (tokens : List Token)
    (h : (tpr.build_graph tokens).is_empty = false) :
    (tpr.extract_with_info tokens).converged =
      (tpr.solver_run tokens).converged ∧
    (tpr.extract_with_info tokens).iterations =
      (tpr.solver_run tokens).iterations ∧
    (tpr.extract_with_info tokens).phrases =
      (PhraseExtractor.with_config tpr.config).extract tokens
        (CsrGraph.from_builder (tpr.build_graph tokens))
        (tpr.solver_run tokens) := by
  unfold TopicalPageRank.extract_with_info TopicalPageRank.extract_with_info_core
    TopicalPageRank.solver_run
  simp only [h, Bool.false_eq_true, if_false]
  exact ⟨trivial, trivial, trivial⟩

/-- Witness for C2: a one-token input yields a non-empty builder and the
conclusion holds there. -/
theorem c2_convergence_reported_witness :
    (sample_tpr.build_graph sample_tokens1).is_empty = false ∧
    ((sample_tpr.extract_with_info sample_tokens1).converged =
       (sample_tpr.solver_run sample_tokens1).converged ∧
     (sample_tpr.extract_with_info sample_tokens1).iterations =
       (sample_tpr.solver_run sample_tokens1).iterations ∧
     (sample_tpr.extract_with_info sample_tokens1).phrases =
       (PhraseExtractor.with_config sample_tpr.config).extract sample_tokens1
         (CsrGraph.from_builder (sample_tpr.build_graph sample_tokens1))
         (sample_tpr.solver_run sample_tokens1)) :=
  ⟨by decide, c2_convergence_reported sample_tpr sample_tokens1 (by decide)⟩

/-- Claim C8: for every `TopicalPageRank` value and every token sequence,
`extract(tokens)` returns exactly `extract_with_info(tokens).phrases`, and
`extract_keyphrases_topical(tokens, config, topic_weights, min_weight)`
returns the same phrases as
`TopicalPageRank::with_config(config).with_topic_weights(topic_weights)
.with_min_weight(min_weight).extract(tokens)`. -/
theorem c8_extract_refinement :
    (∀ (tpr : TopicalPageRank) (tokens : List Token),
       tpr.extract tokens = (tpr.extract_with_info tokens).phrases) ∧
    (∀ (tokens : List Token) (config : TextRankConfig)
       (topic_weights : List (String × Rat)) (min_weight : Rat),
       extract_keyphrases_topical tokens config topic_weights min_weight =
         (((TopicalPageRank.with_config config).with_topic_weights
             topic_weights).with_min_weight min_weight).extract tokens) :=
  ⟨fun _ _ => rfl, fun _ _ _ _ => rfl⟩

/-- Claim C9: `extract_with_info` constructs its co-occurrence graph with the
`weighted` argument fixed to `true` and the `ignore_sentence_boundaries`
argument fixed to `false`, for every configuration; consequently every
window pair feeding an edge has both tokens in the same sentence (windows
never span sentence boundaries), and a weighted edge insertion always
increments the accumulated weight of the pair by one (co-occurrence counts
always accumulate, never saturate). -/
theorem c9_builder_flags_fixed :
    (∀ (tpr : TopicalPageRank) (tokens : List Token),
       tpr.build_graph tokens =
         GraphBuilder.from_tokens_with_pos_and_boundaries tokens
           tpr.config.window_size true tpr.include_pos_opt
           tpr.config.use_pos_in_nodes false) ∧
    (∀ (tokens : List Token) (w : Nat) (p : Token × Token),
       p ∈ window_pairs tokens w false →
         p.1.sentence_idx = p.2.sentence_idx) ∧
    (∀ (es : List ((Nat × Nat) × Rat)) (q : Nat × Nat),
       edge_weight (add_edge true es q) q = edge_weight es q + 1) := by
  refine ⟨fun _ _ => rfl, ?_, ?_⟩
  · intro tokens w p hp
    unfold window_pairs at hp
    rw [List.mem_flatMap] at hp
    obtain ⟨it, -, hmem⟩ := hp
    rw [List.mem_map] at hmem
    obtain ⟨ju, hju, hpair⟩ := hmem
    rw [List.mem_filter] at hju
    have hcond := hju.2
    simp only [Bool.and_eq_true, decide_eq_true_eq, Bool.false_or,
      beq_iff_eq] at hcond
    rw [← hpair]
    exact hcond.2
  · intro es q
    induction es with
    | nil => simp [add_edge, edge_weight]
    | cons e rest ih =>
      by_cases he : e.1 = q
      · simp [add_edge, edge_weight, he]
      · simp [add_edge, edge_weight, he, ih]

/-- Witness for C9: on a concrete two-token sequence the window pair lies in
one sentence, and a concrete weighted insertion increments the weight. -/
theorem c9_builder_flags_fixed_witness :
    (sample_token "a" 0, sample_token "b" 1).1.sentence_idx =
      (sample_token "a" 0, sample_token "b" 1).2.sentence_idx ∧
    edge_weight (add_edge true [((0, 1), 1)] (0, 1)) (0, 1) =
      edge_weight [((0, 1), 1)] (0, 1) + 1 :=
  ⟨c9_builder_flags_fixed.2.1 [sample_token "a" 0, sample_token "b" 1] 2
      (sample_token "a" 0, sample_token "b" 1) (by decide),
   c9_builder_flags_fixed.2.2 [((0, 1), 1)] (0, 1)⟩

/-- Claim C10: for every `Duration` d (nanosecond part below 10^9, the
standard-library invariant), `StageReport::new(d).duration_us()` equals d
truncated to whole microseconds taken modulo 2^64; consequently
`StageReport::new(d).duration() == d` exactly when d is a whole number of
microseconds representable in 64 bits — any sub-microsecond component is
silently dropped. -/
theorem c10_duration_truncation (d : Duration)
    (hn : d.nanos < 1000000000) :
    (StageReport.new d).duration_us = d.as_micros % 2 ^ 64 ∧
    ((StageReport.new d).duration = d ↔
       d.nanos % 1000 = 0 ∧ d.as_micros < 2 ^ 64) := by
  obtain ⟨secs, nanos⟩ := d
  refine ⟨rfl, ?_⟩
  have hpow : (2 : Nat) ^ 64 = 18446744073709551616 := by norm_num
  simp only [StageReport.duration, StageReport.new, Duration.from_micros,
    Duration.as_micros, Duration.mk.injEq, hpow] at hn ⊢
  constructor
  · rintro ⟨h1, h2⟩
    set us := (secs * 1000000 + nanos / 1000) % 18446744073709551616 with hus
    omega
  · rintro ⟨h1, h2⟩
    rw [Nat.mod_eq_of_lt h2]
    omega

/-- Witness for C10: the duration 1 s + 500 ns satisfies the invariant; its
report keeps 1000000 µs and does not round-trip (500 ns are dropped). -/
theorem c10_duration_truncation_witness :
    (Duration.mk 1 500).nanos < 1000000000 ∧
    ((StageReport.new (Duration.mk 1 500)).duration_us =
       (Duration.mk 1 500).as_micros % 2 ^ 64 ∧
     ((StageReport.new (Duration.mk 1 500)).duration = Duration.mk 1 500 ↔
        (Duration.mk 1 500).nanos % 1000 = 0 ∧
          (Duration.mk 1 500).as_micros < 2 ^ 64)) :=
  ⟨by decide, c10_duration_truncation (Duration.mk 1 500) (by decide)⟩

end FastTextrank
